import Mathlib

/-!
Verification of the garment-fitting core of the fit-passport system.

The development shallowly embeds the fit-analysis and garment-fitting
pipeline in Lean 4:

- all JavaScript numbers are modelled as exact rationals;
- the transcendental library functions the code calls (Math.sqrt, Math.sin,
  Math.cos, Math.atan2, Math.PI) are passed explicitly as a MathOps record,
  since their values are irrational in general;
- raycasts against the body mesh (THREE.Raycaster.intersectObject) are
  modelled as a nearest-surface-along-ray query parameter of type RayQuery,
  returning the nearest hit distance, if any;
- mesh attributes are lists of vertices; the world transforms of the meshes
  are taken to be the identity, so local and world coordinates coincide;
- JavaScript truthiness tests on optional numeric fields are modelled by
  jsTruthy (absent or zero is falsy);
- recommendation strings are modelled by their structure (the list of issue
  tags the code concatenates), not by their formatted text;
- a JavaScript runtime fault (reading a property of undefined) is modelled
  by returning none.
-/

namespace FitPassport

/-- Fit status enumeration of the fit analyzer. -/
inductive FitStatus where
  | too_tight
  | tight
  | perfect
  | loose
  | too_loose
deriving DecidableEq, Repr

/-- Garment size-chart measurements, in centimeters.  Optional fields model
the optional properties of the GarmentMeasurements interface. -/
structure GarmentMeasurements where
  chest : ℚ
  waist : Option ℚ
  length : ℚ
  shoulderWidth : Option ℚ
  sleeveLength : Option ℚ
  hemWidth : Option ℚ
  neckWidth : Option ℚ
  armholeDepth : Option ℚ
deriving DecidableEq, Repr

/-- User body measurements, in centimeters. -/
structure BodyMeasurements where
  chest : ℚ
  waist : ℚ
  hips : Option ℚ
  shoulderWidth : ℚ
  torsoLength : Option ℚ
deriving DecidableEq, Repr

/-- JavaScript truthiness of an optional numeric field: an absent value and
the value 0 are falsy, every other number is truthy. -/
def jsTruthy : Option ℚ → Bool
  | none => false
  | some q => q != 0

/-- Per-region fit metric: garment and body values, difference, percentage
difference and classified status. -/
structure FitMetric where
  garmentMeasurement : ℚ
  bodyMeasurement : ℚ
  difference : ℚ
  percentage : ℚ
  status : FitStatus
deriving DecidableEq, Repr

/-- The issue phrases the recommendation generator can emit, by tag. -/
inductive FitIssue where
  | chestTooTight
  | chestSnug
  | chestTooLoose
  | waistTooTight
  | waistTooLoose
  | shouldersTooNarrow
  | shouldersTooWide
  | garmentTooShort
  | garmentVeryLong
deriving DecidableEq, Repr

/-- Fit analysis result: overall status, per-region metrics (waist, shoulder
and length metrics are present only when computed) and the recommendation,
modelled as the ordered list of issue tags. -/
structure FitAnalysis where
  overall : FitStatus
  chestFit : FitMetric
  waistFit : Option FitMetric
  shoulderFit : Option FitMetric
  lengthFit : Option FitMetric
  recommendation : List FitIssue
deriving DecidableEq, Repr

/-- classifyFit: classify a percentage difference into a fit status, by the
threshold chain of the source. -/
def classifyFit (percentage : ℚ) : FitStatus :=
  if percentage < -5 then .too_tight
  else if percentage < 2 then .tight
  else if percentage < 10 then .perfect
  else if percentage < 20 then .loose
  else .too_loose

/-- The statusPriority table used to pick the overall (worst) status:
too_tight and too_loose are priority 0 (worst), tight and loose 1,
perfect 2 (best). -/
def statusPriority : FitStatus → Nat
  | .too_tight => 0
  | .tight => 1
  | .perfect => 2
  | .loose => 1
  | .too_loose => 0

/-- One step of the reduce that picks the worst status: keep the current
accumulator unless the next status has strictly lower priority. -/
def worseOf (worst current : FitStatus) : FitStatus :=
  if statusPriority current < statusPriority worst then current else worst

/-- Build a fit metric for a (garment value, body value) pair: difference,
percentage difference and classified status. -/
def mkFitMetric (g b : ℚ) : FitMetric :=
  let diff := g - b
  let pct := diff / b * 100
  ⟨g, b, diff, pct, classifyFit pct⟩

/-- generateRecommendation: the ordered list of issue tags the source pushes
into its issues array (the formatted string is a function of this list). -/
def generateRecommendation (chestFit : FitMetric) (waistFit shoulderFit lengthFit : Option FitMetric) :
    List FitIssue :=
  (if chestFit.status = .too_tight then [.chestTooTight]
   else if chestFit.status = .tight then [.chestSnug]
   else if chestFit.status = .too_loose then [.chestTooLoose]
   else [])
  ++ (match waistFit with
      | some w =>
        if w.status = .too_tight then [.waistTooTight]
        else if w.status = .too_loose then [.waistTooLoose]
        else []
      | none => [])
  ++ (match shoulderFit with
      | some s =>
        if s.status = .too_tight then [.shouldersTooNarrow]
        else if s.status = .too_loose then [.shouldersTooWide]
        else []
      | none => [])
  ++ (match lengthFit with
      | some l =>
        if l.difference < -5 then [.garmentTooShort]
        else if 15 < l.difference then [.garmentVeryLong]
        else []
      | none => [])

/-- analyzeFit: per-region metrics (waist when the garment waist is truthy,
shoulder when the garment shoulder width is truthy, length when the body
torso length is truthy), and the overall status reduced with worseOf over
the chest, waist and shoulder statuses, starting from the chest status. -/
def analyzeFit (g : GarmentMeasurements) (b : BodyMeasurements) : FitAnalysis :=
  let chestFit := mkFitMetric g.chest b.chest
  let waistFit :=
    if jsTruthy g.waist then some (mkFitMetric (g.waist.getD 0) b.waist) else none
  let shoulderFit :=
    if jsTruthy g.shoulderWidth then some (mkFitMetric (g.shoulderWidth.getD 0) b.shoulderWidth)
    else none
  let lengthFit :=
    if jsTruthy b.torsoLength then some (mkFitMetric g.length (b.torsoLength.getD 0)) else none
  let rest := (waistFit.map FitMetric.status).toList ++ (shoulderFit.map FitMetric.status).toList
  let overall := rest.foldl worseOf chestFit.status
  ⟨overall, chestFit, waistFit, shoulderFit, lengthFit,
    generateRecommendation chestFit waistFit shoulderFit lengthFit⟩

/-- Ease values in centimeters produced by calculateActualEase. -/
structure EaseValues where
  chestEase : ℚ
  waistEase : ℚ
  shoulderEase : ℚ
deriving DecidableEq, Repr

/-- calculateActualEase: per-region garment minus body ease, estimating the
waist ease as 0.75 of the chest ease and the shoulder ease as
min(0.4 chest ease, 3cm) when the garment field is not truthy, all clamped
to be non-negative. -/
def calculateActualEase (g : GarmentMeasurements) (b : BodyMeasurements) : EaseValues :=
  let chestEase := g.chest - b.chest
  let waistEase :=
    if jsTruthy g.waist then g.waist.getD 0 - b.waist else chestEase * 0.75
  let shoulderEase :=
    if jsTruthy g.shoulderWidth then g.shoulderWidth.getD 0 - b.shoulderWidth
    else min (chestEase * 0.4) 3
  ⟨max 0 chestEase, max 0 waistEase, max 0 shoulderEase⟩

/-- statusScores table of calculateFitScore. -/
def statusScore : FitStatus → ℤ
  | .too_tight => -10
  | .tight => 3
  | .perfect => 10
  | .loose => 5
  | .too_loose => -5

/-- calculateFitScore: twice the overall status score plus the chest score
plus the waist and shoulder scores when those metrics are present. -/
def calculateFitScore (a : FitAnalysis) : ℤ :=
  statusScore a.overall * 2
    + statusScore a.chestFit.status
    + (match a.waistFit with | some w => statusScore w.status | none => 0)
    + (match a.shoulderFit with | some s => statusScore s.status | none => 0)

/-- One candidate entry of the size chart given to recommendSize. -/
structure SizeOption where
  size : String
  measurements : GarmentMeasurements
deriving DecidableEq, Repr

/-- Reason attached to an alternative size: either the displaced previous
best, or a positively scored non-extreme candidate. -/
inductive AltReason where
  | displacedBest (recommendation : List FitIssue)
  | positiveAlternative (recommendation : List FitIssue)
deriving DecidableEq, Repr

/-- An alternative size entry of the recommendSize result. -/
structure SizeAlternative where
  size : String
  reason : AltReason
deriving DecidableEq, Repr

/-- Result record of recommendSize. -/
structure SizeRecommendation where
  recommendedSize : String
  analysis : FitAnalysis
  alternativeSizes : List SizeAlternative
deriving DecidableEq, Repr

/-- Loop state of recommendSize: current best size, its analysis and score,
and the alternatives accumulated so far. -/
structure RecommendState where
  bestSize : SizeOption
  bestAnalysis : FitAnalysis
  bestScore : ℤ
  alternatives : List SizeAlternative
deriving DecidableEq, Repr

/-- One iteration of the recommendSize scan loop over a candidate size:
a strictly better score displaces the best (pushing the previous best as an
alternative when its overall status is not extreme); otherwise a positively
scored, non-extreme candidate is appended to the alternatives. -/
def recommendStep (b : BodyMeasurements) (st : RecommendState) (sizeOption : SizeOption) :
    RecommendState :=
  let analysis := analyzeFit sizeOption.measurements b
  let score := calculateFitScore analysis
  if st.bestScore < score then
    let alts :=
      if st.bestAnalysis.overall ≠ .too_tight ∧ st.bestAnalysis.overall ≠ .too_loose then
        st.alternatives ++ [⟨st.bestSize.size, .displacedBest st.bestAnalysis.recommendation⟩]
      else st.alternatives
    ⟨sizeOption, analysis, score, alts⟩
  else if 0 < score ∧ analysis.overall ≠ .too_tight ∧ analysis.overall ≠ .too_loose then
    ⟨st.bestSize, st.bestAnalysis, st.bestScore,
      st.alternatives ++ [⟨sizeOption.size, .positiveAlternative analysis.recommendation⟩]⟩
  else
    ⟨st.bestSize, st.bestAnalysis, st.bestScore, st.alternatives⟩

/-- recommendSize: seeded with the first candidate (the source reads
availableSizes[0].measurements unconditionally, so the empty list faults at
runtime, modelled by none), then scans every candidate — including the
first again — with recommendStep, and returns the best size, its analysis,
and the first two accumulated alternatives. -/
def recommendSize (availableSizes : List SizeOption) (b : BodyMeasurements) :
    Option SizeRecommendation :=
  match availableSizes with
  | [] => none
  | s0 :: _ =>
    let initAnalysis := analyzeFit s0.measurements b
    let init : RecommendState := ⟨s0, initAnalysis, calculateFitScore initAnalysis, []⟩
    let final := availableSizes.foldl (recommendStep b) init
    some ⟨final.bestSize.size, final.bestAnalysis, final.alternatives.take 2⟩

/-- Category index of a status in the order used by the classification
monotonicity property (too_tight, tight, perfect, loose, too_loose). -/
def statusIdx : FitStatus → Nat
  | .too_tight => 0
  | .tight => 1
  | .perfect => 2
  | .loose => 3
  | .too_loose => 4

/-- The statuses the source actually feeds into the overall reduce: chest
always, then waist and shoulder when present (the length metric is not
included). -/
def consideredStatuses (a : FitAnalysis) : List FitStatus :=
  a.chestFit.status ::
    ((a.waistFit.map FitMetric.status).toList ++ (a.shoulderFit.map FitMetric.status).toList)

/-- A 3D vector with exact rational components. -/
structure Vec3 where
  x : ℚ
  y : ℚ
  z : ℚ
deriving DecidableEq, Repr

/-- Componentwise vector addition. -/
def Vec3.add (a b : Vec3) : Vec3 := ⟨a.x + b.x, a.y + b.y, a.z + b.z⟩

/-- Componentwise vector subtraction. -/
def Vec3.sub (a b : Vec3) : Vec3 := ⟨a.x - b.x, a.y - b.y, a.z - b.z⟩

/-- Scalar multiple of a vector. -/
def Vec3.smul (k : ℚ) (a : Vec3) : Vec3 := ⟨k * a.x, k * a.y, k * a.z⟩

/-- Vector negation (THREE.Vector3.negate). -/
def Vec3.neg (a : Vec3) : Vec3 := ⟨-a.x, -a.y, -a.z⟩

/-- Dot product. -/
def Vec3.dot (a b : Vec3) : ℚ := a.x * b.x + a.y * b.y + a.z * b.z

/-- Cross product. -/
def Vec3.cross (a b : Vec3) : Vec3 :=
  ⟨a.y * b.z - a.z * b.y, a.z * b.x - a.x * b.z, a.x * b.y - a.y * b.x⟩

/-- The zero vector. -/
def Vec3.zero : Vec3 := ⟨0, 0, 0⟩

/-- The transcendental library functions the source calls, passed explicitly
because their exact values are irrational in general: Math.sqrt, Math.sin,
Math.cos, Math.atan2 and the constant Math.PI. -/
structure MathOps where
  sqrt : ℚ → ℚ
  sin : ℚ → ℚ
  cos : ℚ → ℚ
  atan2 : ℚ → ℚ → ℚ
  pi : ℚ

/-- Vector length, THREE.Vector3.length. -/
def Vec3.vlen (ops : MathOps) (v : Vec3) : ℚ := ops.sqrt (v.dot v)

/-- THREE.Vector3.normalize: divide by the length, guarding a zero length
with 1 (divideScalar(length or 1)). -/
def Vec3.normalizeV (ops : MathOps) (v : Vec3) : Vec3 :=
  let len := v.vlen ops
  Vec3.smul (1 / (if len = 0 then 1 else len)) v

/-- Nearest-surface-along-ray query: for an origin and a direction, the
distance of the nearest intersection with the body mesh reported by
THREE.Raycaster.intersectObject, or none when the ray misses. -/
def RayQuery : Type := Vec3 → Vec3 → Option ℚ

/-- A garment geometry: positions, normals and a triangle index (flat list
of vertex indices, three per triangle).  The garment geometries the
pipeline builds always carry all three attributes. -/
structure Geom where
  positions : List Vec3
  normals : List Vec3
  index : List Nat
deriving DecidableEq, Repr

/-- A general buffer geometry whose normal attribute and index may be
absent, as for an arbitrary input mesh. -/
structure BufferGeometry where
  positions : List Vec3
  normalsAttr : Option (List Vec3)
  index : Option (List Nat)
deriving DecidableEq, Repr

/-- Group the flat index list into triangles, dropping a trailing
incomplete chunk (the source loops i += 3 while i < count). -/
def triangleTriples : List Nat → List (Nat × Nat × Nat)
  | a :: b :: c :: rest => (a, b, c) :: triangleTriples rest
  | _ => []

/-- Read a vertex list at an index, with the zero vector for an
out-of-range index. -/
def getV (ps : List Vec3) (i : Nat) : Vec3 := ps.getD i Vec3.zero

/-- Accumulation phase of THREE.BufferGeometry.computeVertexNormals: each
triangle (A, B, C) adds its face normal (C - B) x (A - B) to the normals of
its three vertices (once per slot naming the vertex). -/
def accumulateNormals (ps : List Vec3) (tris : List (Nat × Nat × Nat)) : List Vec3 :=
  (List.range ps.length).map (fun i =>
    tris.foldl (fun acc t =>
      let pA := getV ps t.1
      let pB := getV ps t.2.1
      let pC := getV ps t.2.2
      let fn := Vec3.cross (Vec3.sub pC pB) (Vec3.sub pA pB)
      let acc1 := if t.1 = i then Vec3.add acc fn else acc
      let acc2 := if t.2.1 = i then Vec3.add acc1 fn else acc1
      if t.2.2 = i then Vec3.add acc2 fn else acc2) Vec3.zero)

/-- THREE.BufferGeometry.computeVertexNormals: accumulate face normals per
vertex (over the index when present, otherwise over consecutive position
triples) and normalize each. -/
def computeVertexNormalsList (ops : MathOps) (ps : List Vec3) (index : Option (List Nat)) :
    List Vec3 :=
  let tris :=
    match index with
    | some idx => triangleTriples idx
    | none => triangleTriples (List.range ps.length)
  (accumulateNormals ps tris).map (Vec3.normalizeV ops)

/-- Recompute the vertex normals of a garment geometry. -/
def Geom.computeNormals (ops : MathOps) (g : Geom) : Geom :=
  ⟨g.positions, computeVertexNormalsList ops g.positions (some g.index), g.index⟩

/-- Record b as a neighbor of a, ignoring duplicates (the source stores
neighbors in a Set) and out-of-range vertices. -/
def addNeighbor (m : Array (List Nat)) (a b : Nat) : Array (List Nat) :=
  if h : a < m.size then
    if b ∈ m[a] then m else m.set ⟨a, h⟩ (m[a] ++ [b])
  else m

/-- buildAdjacencyMap / buildNeighborMap: every triangle (a, b, c) adds the
six directed neighbor edges a-b, a-c, b-a, b-c, c-a, c-b. -/
def buildAdjacency (vertexCount : Nat) (idx : List Nat) : Array (List Nat) :=
  (triangleTriples idx).foldl (fun m t =>
    let m1 := addNeighbor m t.1 t.2.1
    let m2 := addNeighbor m1 t.1 t.2.2
    let m3 := addNeighbor m2 t.2.1 t.1
    let m4 := addNeighbor m3 t.2.1 t.2.2
    let m5 := addNeighbor m4 t.2.2 t.1
    addNeighbor m5 t.2.2 t.2.1) (Array.mkArray vertexCount [])

/-- Average of the positions of a neighbor list. -/
def neighborAverage (ps : List Vec3) (ns : List Nat) : Vec3 :=
  Vec3.smul (1 / (ns.length : ℚ))
    (ns.foldl (fun acc j => Vec3.add acc (getV ps j)) Vec3.zero)

/-- One Laplacian smoothing pass: every vertex with at least one neighbor
moves toward the average of its neighbors in the snapshot taken at the
start of the pass (simultaneous update); vertices without neighbors are
unchanged. -/
def smoothPass (adj : Array (List Nat)) (lambda : ℚ) (ps : List Vec3) : List Vec3 :=
  ps.mapIdx (fun i p =>
    match adj.getD i [] with
    | [] => p
    | ns => Vec3.add p (Vec3.smul lambda (Vec3.sub (neighborAverage ps ns) p)))

/-- Iterate the smoothing pass. -/
def iterateSmooth (adj : Array (List Nat)) (lambda : ℚ) : Nat → List Vec3 → List Vec3
  | 0, ps => ps
  | n + 1, ps => iterateSmooth adj lambda n (smoothPass adj lambda ps)

/-- applyLaplacianSmoothing of the hybrid fitting module: build the
adjacency from the garment index and run the given number of smoothing
passes with the given blend factor; the normals are left as they are. -/
def applyLaplacianSmoothing (g : Geom) (iterations : Nat) (lambda : ℚ) : Geom :=
  let adj := buildAdjacency g.positions.length g.index
  ⟨iterateSmooth adj lambda iterations g.positions, g.normals, g.index⟩

/-- Smallest y coordinate of a vertex list (bounding-box minimum). -/
def minYOf : List Vec3 → ℚ
  | [] => 0
  | p :: rest => rest.foldl (fun m q => min m q.y) p.y

/-- Largest y coordinate of a vertex list (bounding-box maximum). -/
def maxYOf : List Vec3 → ℚ
  | [] => 0
  | p :: rest => rest.foldl (fun m q => max m q.y) p.y

/-- Smallest x coordinate of a vertex list. -/
def minXOf : List Vec3 → ℚ
  | [] => 0
  | p :: rest => rest.foldl (fun m q => min m q.x) p.x

/-- Largest x coordinate of a vertex list. -/
def maxXOf : List Vec3 → ℚ
  | [] => 0
  | p :: rest => rest.foldl (fun m q => max m q.x) p.x

/-- applyGravityDrape: each vertex drops by strength x (1 - normalized
height) x 0.05; normals are not recomputed here. -/
def applyGravityDrape (g : Geom) (strength : ℚ) : Geom :=
  let bmin := minYOf g.positions
  let height := maxYOf g.positions - bmin
  let ps := g.positions.map (fun p =>
    let normalizedY := (p.y - bmin) / height
    let gravityWeight := 1 - normalizedY
    (⟨p.x, p.y - strength * gravityWeight * 0.05, p.z⟩ : Vec3))
  ⟨ps, g.normals, g.index⟩

/-- addSubtleWrinkles: displace each vertex along its normal by
(sin(30x) cos(30z) + sin(20y)) x 0.5 x intensity; normals are not
recomputed here. -/
def addSubtleWrinkles (ops : MathOps) (g : Geom) (intensity : ℚ) : Geom :=
  let ps := (g.positions.zip g.normals).map (fun pn =>
    let p := pn.1
    let n := pn.2
    let noise := (ops.sin (p.x * 30) * ops.cos (p.z * 30) + ops.sin (p.y * 20)) * 0.5
    Vec3.add p (Vec3.smul (noise * intensity) n))
  ⟨ps, g.normals, g.index⟩

/-- Per-vertex stretch-zone displacement, given the garment bounding box
and the inward raycast distance d: when d < 0.02 the vertex is pulled
toward the body by d x (1 - stretchFactor), with stretchFactor 0.7 in the
chest band (0.5 < t < 0.85), 0.5 at the shoulders (t at least 0.85), and
1.0 elsewhere. -/
def stretchVertex (bmin height d : ℚ) (p n : Vec3) : Vec3 :=
  if d < 0.02 then
    let normalizedY := (p.y - bmin) / height
    let stretchFactor : ℚ :=
      if 0.5 < normalizedY ∧ normalizedY < 0.85 then 0.7
      else if 0.85 ≤ normalizedY then 0.5
      else 1
    Vec3.sub p (Vec3.smul (d * (1 - stretchFactor)) n)
  else p

/-- applyStretchZones: raycast from each vertex along its negated normal
and apply the stretch displacement to the hit vertices, then recompute the
vertex normals. -/
def applyStretchZones (ops : MathOps) (ray : RayQuery) (g : Geom) : Geom :=
  let bmin := minYOf g.positions
  let height := maxYOf g.positions - bmin
  let ps := (g.positions.zip g.normals).map (fun pn =>
    match ray pn.1 (Vec3.neg pn.2) with
    | some d => stretchVertex bmin height d pn.1 pn.2
    | none => pn.1)
  Geom.computeNormals ops ⟨ps, g.normals, g.index⟩

/-- The fabric types and their weight coefficients. -/
inductive FabricType where
  | light
  | medium
  | heavy
deriving DecidableEq, Repr

/-- Weight coefficient table: 0.008 light, 0.015 medium, 0.025 heavy. -/
def weightFactorOf : FabricType → ℚ
  | .light => 0.008
  | .medium => 0.015
  | .heavy => 0.025

/-- applyFabricWeight: each vertex drops by
weightFactor x (1 - normalized height) x (1 + 0.3 x distance from the
vertical axis), then the normals are recomputed. -/
def applyFabricWeight (ops : MathOps) (g : Geom) (fabricType : FabricType) : Geom :=
  let bmin := minYOf g.positions
  let height := maxYOf g.positions - bmin
  let wf := weightFactorOf fabricType
  let ps := g.positions.map (fun p =>
    let normalizedY := (p.y - bmin) / height
    let distanceFromCenter := ops.sqrt (p.x * p.x + p.z * p.z)
    let verticalWeight := (1 - normalizedY) * wf
    let lateralWeight := distanceFromCenter * 0.3
    let totalDrop := verticalWeight * (1 + lateralWeight)
    (⟨p.x, p.y - totalDrop, p.z⟩ : Vec3))
  Geom.computeNormals ops ⟨ps, g.normals, g.index⟩

/-- Math.sign. -/
def qSign (q : ℚ) : ℚ := if 0 < q then 1 else if q < 0 then -1 else 0

/-- applySeamTension: vertices within 0.05 of the shoulder line are scaled
by 0.95 in x and z; vertices whose azimuth is within 0.3 rad of the side
seams get x overwritten by original x minus sign(x) x 0.003 (the source
writes this from the loop-local original x, clobbering the shoulder
scaling of x when both branches fire); the normals are then recomputed. -/
def applySeamTension (ops : MathOps) (g : Geom) : Geom :=
  let bmin := minYOf g.positions
  let height := maxYOf g.positions - bmin
  let shoulderY := bmin + height * 0.82
  let ps := g.positions.map (fun p =>
    let shoulderSeam := |p.y - shoulderY| < 0.05
    let x1 := if shoulderSeam then p.x * 0.95 else p.x
    let z1 := if shoulderSeam then p.z * 0.95 else p.z
    let angle := ops.atan2 p.z p.x
    let sideSeam := |(|angle| - ops.pi / 2)| < 0.3
    let x2 := if sideSeam then p.x + -(qSign p.x) * 0.003 else x1
    (⟨x2, p.y, z1⟩ : Vec3))
  Geom.computeNormals ops ⟨ps, g.normals, g.index⟩

/-- Per-vertex collision response, given the nearest inward raycast hit:
a hit closer than minDistance pushes the vertex outward along its normal
by (minDistance - d) x 1.2 (elastic factor); otherwise, and when the ray
misses, the vertex is unchanged. -/
def collisionResponseVertex (minDistance : ℚ) (p n : Vec3) (hit : Option ℚ) : Vec3 :=
  match hit with
  | none => p
  | some d =>
    if d < minDistance then
      let pushDistance := minDistance - d
      let elasticFactor : ℚ := 1.2
      Vec3.add p (Vec3.smul (pushDistance * elasticFactor) n)
    else p

/-- applyCollisionResponse: apply the per-vertex collision response to
every vertex; when at least one vertex was pushed, the normals are
recomputed. -/
def applyCollisionResponse (ops : MathOps) (ray : RayQuery) (g : Geom) (minDistance : ℚ) :
    Geom :=
  let ps := (g.positions.zip g.normals).map (fun pn =>
    collisionResponseVertex minDistance pn.1 pn.2 (ray pn.1 (Vec3.neg pn.2)))
  let anyPushed := (g.positions.zip g.normals).any (fun pn =>
    match ray pn.1 (Vec3.neg pn.2) with
    | some d => decide (d < minDistance)
    | none => false)
  if anyPushed then Geom.computeNormals ops ⟨ps, g.normals, g.index⟩
  else ⟨ps, g.normals, g.index⟩

/-- Per-vertex dynamic wrinkle displacement for a hit at distance d:
wrinkleFactor is 1 below 0.03, 0.5 below 0.06, otherwise 0; a positive
factor displaces x and z along the tangent (-nz, nx) by
sin(40x + 30z) cos(35y) sin(60x) x intensity x wrinkleFactor. -/
def wrinkleVertex (ops : MathOps) (intensity : ℚ) (p n : Vec3) (d : ℚ) : Vec3 :=
  let wrinkleFactor : ℚ := if d < 0.03 then 1 else if d < 0.06 then 0.5 else 0
  if 0 < wrinkleFactor then
    let wrinklePattern :=
      ops.sin (p.x * 40 + p.z * 30) * ops.cos (p.y * 35) * ops.sin (p.x * 60)
    let wrinkleDisplacement := wrinklePattern * intensity * wrinkleFactor
    ⟨p.x + -n.z * wrinkleDisplacement, p.y, p.z + n.x * wrinkleDisplacement⟩
  else p

/-- applyDynamicWrinkles: raycast from each vertex along its negated
normal and apply the wrinkle displacement to the hit vertices, then
recompute the vertex normals. -/
def applyDynamicWrinkles (ops : MathOps) (ray : RayQuery) (g : Geom) (intensity : ℚ) : Geom :=
  let ps := (g.positions.zip g.normals).map (fun pn =>
    match ray pn.1 (Vec3.neg pn.2) with
    | some d => wrinkleVertex ops intensity pn.1 pn.2 d
    | none => pn.1)
  Geom.computeNormals ops ⟨ps, g.normals, g.index⟩

/-- Options record of applyRealisticFabricPhysics. -/
structure FabricPhysicsOptions where
  fabricType : FabricType
  enableStretch : Bool
  enableCollision : Bool
  enableWeight : Bool
  enableSeams : Bool
  enableDynamicWrinkles : Bool
deriving DecidableEq, Repr

/-- The named stages of the hybrid fitting pipeline, in the roles the
source gives them. -/
inductive PipelineStage where
  | regionSelect
  | fabricOffsetInflate
  | laplacianSmooth
  | gravityDrape
  | subtleWrinkles
  | stretchZones
  | fabricWeight
  | seamTension
  | collisionResponse
  | dynamicWrinkles
  | recomputeNormals
deriving DecidableEq, Repr

/-- The stage sequence applyRealisticFabricPhysics dispatches, in source
order: stretch zones, fabric weight, seam tension, collision response
(minDistance 0.015), dynamic wrinkles (intensity 0.004), each guarded by
its enable flag. -/
def fabricPhysicsStageTrace (o : FabricPhysicsOptions) : List PipelineStage :=
  (if o.enableStretch then [.stretchZones] else [])
    ++ (if o.enableWeight then [.fabricWeight] else [])
    ++ (if o.enableSeams then [.seamTension] else [])
    ++ (if o.enableCollision then [.collisionResponse] else [])
    ++ (if o.enableDynamicWrinkles then [.dynamicWrinkles] else [])

/-- Interpretation of one pipeline stage as a garment-geometry
transformation, with the parameters fixed at the source call sites: 3
smoothing iterations at lambda 0.4, gravity strength 0.01, subtle wrinkle
intensity 0.002, medium fabric, collision clearance 0.015, dynamic wrinkle
intensity 0.004.  The region-selection and inflation stages construct the
garment and are not geometry-to-geometry transformations; they act as the
identity here. -/
def applyPipelineStage (ops : MathOps) (ray : RayQuery) (g : Geom) : PipelineStage → Geom
  | .regionSelect => g
  | .fabricOffsetInflate => g
  | .laplacianSmooth => applyLaplacianSmoothing g 3 0.4
  | .gravityDrape => applyGravityDrape g 0.01
  | .subtleWrinkles => addSubtleWrinkles ops g 0.002
  | .stretchZones => applyStretchZones ops ray g
  | .fabricWeight => applyFabricWeight ops g .medium
  | .seamTension => applySeamTension ops g
  | .collisionResponse => applyCollisionResponse ops ray g 0.015
  | .dynamicWrinkles => applyDynamicWrinkles ops ray g 0.004
  | .recomputeNormals => Geom.computeNormals ops g

/-- applyRealisticFabricPhysics: run the enabled physics stages over the
garment geometry, in the order of fabricPhysicsStageTrace. -/
def applyRealisticFabricPhysics (ops : MathOps) (ray : RayQuery) (g : Geom)
    (o : FabricPhysicsOptions) : Geom :=
  (fabricPhysicsStageTrace o).foldl (applyPipelineStage ops ray) g

/-- Options record of createHybridTShirt: manual ease values, optional
product measurements, and the draping flags (gravity, smoothing, wrinkles
default to true). -/
structure HybridGarmentOptions where
  chestEase : Option ℚ
  waistEase : Option ℚ
  shoulderEase : Option ℚ
  garmentMeasurements : Option GarmentMeasurements
  bodyMeasurements : Option BodyMeasurements
  gravity : Bool
  smoothing : Bool
  wrinkles : Bool
deriving DecidableEq, Repr

/-- The defaulted options of a plain createHybridTShirt call. -/
def defaultHybridOptions : HybridGarmentOptions :=
  ⟨none, none, none, none, none, true, true, true⟩

/-- The physics options createHybridTShirt passes to
applyRealisticFabricPhysics: medium fabric, every stage enabled. -/
def hybridPhysicsOptions : FabricPhysicsOptions :=
  ⟨.medium, true, true, true, true, true⟩

/-- The stage sequence of createHybridTShirt after the input checks:
region selection and fabric-offset inflation build the garment; then,
each guarded by its flag, Laplacian smoothing, gravity drape and subtle
wrinkles; then the five physics stages; and finally the vertex-normal
recomputation. -/
def createHybridTShirtStageTrace (o : HybridGarmentOptions) : List PipelineStage :=
  [.regionSelect, .fabricOffsetInflate]
    ++ (if o.smoothing then [.laplacianSmooth] else [])
    ++ (if o.gravity then [.gravityDrape] else [])
    ++ (if o.wrinkles then [.subtleWrinkles] else [])
    ++ fabricPhysicsStageTrace hybridPhysicsOptions
    ++ [.recomputeNormals]

/-- The stage order asserted by the specification: region selection,
fabric offset, the four draping passes stretch, weight, seams, wrinkles in
that order, then the collision resolver, with the mesh smoother last. -/
def specClaimedStageOrder : List PipelineStage :=
  [.regionSelect, .fabricOffsetInflate, .stretchZones, .fabricWeight, .seamTension,
    .dynamicWrinkles, .collisionResponse, .laplacianSmooth]

/-- The blended fabric offset of the hybrid fitting, in meters, from the
torso-normalized height: shoulder ease above 0.8, a chest-to-shoulder
blend above 0.5, and a waist-to-chest blend below. -/
def blendedFabricOffset (chestEase waistEase shoulderEase normalizedY : ℚ) : ℚ :=
  if 0.8 < normalizedY then shoulderEase / 100
  else if 0.5 < normalizedY then
    let t := (normalizedY - 0.5) / 0.3
    let chestOffset := chestEase / 100
    let shoulderOffset := shoulderEase / 100
    chestOffset + (shoulderOffset - chestOffset) * t
  else
    let t := normalizedY / 0.5
    let waistOffset := waistEase / 100
    let chestOffset := chestEase / 100
    waistOffset + (chestOffset - waistOffset) * t

/-- Clearance clamp of the blended offset: a negative offset becomes
minClearance 0.003, an offset below minClearance becomes 0.003, an offset
above maxClearance 0.05 becomes 0.05. -/
def clampedFabricOffset (fabricOffset : ℚ) : ℚ :=
  let minClearance : ℚ := 0.003
  let maxClearance : ℚ := 0.05
  if fabricOffset < 0 then minClearance
  else if fabricOffset < minClearance then minClearance
  else if maxClearance < fabricOffset then maxClearance
  else fabricOffset

/-- The final per-vertex displacement magnitude of the fabric offset
calculator: blend, clamp, and, when the clamped offset exceeds 0.01, the
boxiness multiplier 0.6 + 0.4 x radialPosition followed by a re-clamp to
at least minClearance. -/
def hybridVertexOffset (chestEase waistEase shoulderEase normalizedY radialPosition : ℚ) : ℚ :=
  let actualOffset :=
    clampedFabricOffset (blendedFabricOffset chestEase waistEase shoulderEase normalizedY)
  if 0.01 < actualOffset then
    let boxinessMultiplier := 0.6 + radialPosition * 0.4
    max (actualOffset * boxinessMultiplier) 0.003
  else actualOffset

/-- The region predicate of createHybridTShirt: inside the torso band
(bottomY to topY), not in the neck cut-out (above neckTopY and within 0.08
of the vertical axis), and not removed by the sleeve cutoff (on an arm at
shoulder height and below the sleeve end). -/
def inShirtRegion (ops : MathOps) (minY bodyHeight bottomY topY neckTopY bodyWidth sleeveEndY : ℚ)
    (v : Vec3) : Bool :=
  let isInYRange := decide (bottomY ≤ v.y) && decide (v.y ≤ topY)
  let distFromCenter := ops.sqrt (v.x * v.x + v.z * v.z)
  let isNeck := decide (neckTopY ≤ v.y) && decide (distFromCenter < 0.08)
  let normalizedY := (v.y - minY) / bodyHeight
  let isAtShoulderHeight := decide ((0.7 : ℚ) ≤ normalizedY) && decide (normalizedY ≤ 0.9)
  let isOnArm := isAtShoulderHeight && decide (bodyWidth * 0.15 < |v.x|)
  let isSleeveCutoff := isOnArm && decide (v.y < sleeveEndY)
  isInYRange && !isNeck && !isSleeveCutoff

/-- createHybridTShirt: pick the ease values (product measurements when
both records are present, otherwise the manual values with defaults 8, 6,
3); compute the input's vertex normals in place when its normal attribute
is missing; reject an unindexed input by returning an empty group; and
otherwise select the shirt region, inflate it by the per-vertex fabric
offset, compact the index, and run the draping, physics and normal
stages of createHybridTShirtStageTrace.  The first component of the
result is the input geometry as the call leaves it; the second is the
returned group, a list of garment geometries. -/
def createHybridTShirt (ops : MathOps) (ray : RayQuery) (avatar : BufferGeometry)
    (o : HybridGarmentOptions) : BufferGeometry × List Geom :=
  let eases :=
    match o.garmentMeasurements, o.bodyMeasurements with
    | some gm, some bm =>
      let e := calculateActualEase gm bm
      (e.chestEase, e.waistEase, e.shoulderEase)
    | _, _ => (o.chestEase.getD 8, o.waistEase.getD 6, o.shoulderEase.getD 3)
  let chestEase := eases.1
  let waistEase := eases.2.1
  let shoulderEase := eases.2.2
  let avatar1 :=
    if avatar.normalsAttr.isNone then
      (⟨avatar.positions, some (computeVertexNormalsList ops avatar.positions avatar.index),
        avatar.index⟩ : BufferGeometry)
    else avatar
  match avatar1.index with
  | none => (avatar1, [])
  | some oldIndex =>
    let normals := avatar1.normalsAttr.getD []
    let minY := minYOf avatar1.positions
    let maxY := maxYOf avatar1.positions
    let minX := minXOf avatar1.positions
    let maxX := maxXOf avatar1.positions
    let bodyHeight := maxY - minY
    let bodyWidth := maxX - minX
    let topY := minY + bodyHeight * 0.85
    let bottomY := minY + bodyHeight * 0.5
    let neckTopY := minY + bodyHeight * 0.92
    let sleeveLength := (o.garmentMeasurements.bind GarmentMeasurements.sleeveLength).getD 20
    let shoulderY := minY + bodyHeight * 0.82
    let sleeveEndY := shoulderY - sleeveLength / 100
    let keep := inShirtRegion ops minY bodyHeight bottomY topY neckTopY bodyWidth sleeveEndY
    let keptFlags := avatar1.positions.map keep
    let newVerts := ((avatar1.positions.zip normals).filter (fun pn => keep pn.1)).map
      (fun pn =>
        let v := pn.1
        let n := Vec3.normalizeV ops pn.2
        let normalizedY := (v.y - bottomY) / (topY - bottomY)
        let distanceFromCenter := ops.sqrt (v.x * v.x + v.z * v.z)
        let radialPosition := min (distanceFromCenter / (bodyWidth / 2)) 1
        let adjustedOffset :=
          hybridVertexOffset chestEase waistEase shoulderEase normalizedY radialPosition
        (Vec3.add v (Vec3.smul adjustedOffset n), n))
    let keptAt : Nat → Bool := fun i => keptFlags.getD i false
    let remap : Nat → Nat := fun i => ((keptFlags.take i).filter (fun b => b)).length
    let newIndex := (triangleTriples oldIndex).foldl
      (fun acc t =>
        if keptAt t.1 && keptAt t.2.1 && keptAt t.2.2 then
          acc ++ [remap t.1, remap t.2.1, remap t.2.2]
        else acc) []
    let shirt0 : Geom := ⟨newVerts.map Prod.fst, newVerts.map Prod.snd, newIndex⟩
    let shirtFinal :=
      ((createHybridTShirtStageTrace o).drop 2).foldl (applyPipelineStage ops ray) shirt0
    (avatar1, [shirtFinal])

/-- Options record of fitGarmentToBody. -/
structure FittingOptions where
  fabricOffset : ℚ
  smoothingIterations : Nat
  collisionSamples : Nat
deriving DecidableEq, Repr

/-- The default fitting options: 5mm fabric offset, 3 smoothing passes,
8 collision samples. -/
def defaultFittingOptions : FittingOptions := ⟨0.005, 3, 8⟩

/-- Per-vertex collision resolution of the basic fitting engine: normalize
the vertex normal, raycast inward with the raycaster range limited to
twice the offset, and push a vertex whose hit is nearer than the offset
outward to restore it. -/
def resolveCollisionsVertex (ops : MathOps) (ray : RayQuery) (offset : ℚ) (p n : Vec3) : Vec3 :=
  let worldNormal := Vec3.normalizeV ops n
  match ray p (Vec3.neg worldNormal) with
  | none => p
  | some d =>
    if d ≤ offset * 2 then
      if d < offset then Vec3.add p (Vec3.smul (offset - d) worldNormal) else p
    else p

/-- resolveCollisions: apply the per-vertex collision resolution to every
vertex; a geometry without a normal attribute is returned unchanged after
an error log. -/
def resolveCollisions (ops : MathOps) (ray : RayQuery) (g : BufferGeometry) (offset : ℚ) :
    BufferGeometry :=
  match g.normalsAttr with
  | none => g
  | some ns =>
    ⟨(g.positions.zip ns).map (fun pn => resolveCollisionsVertex ops ray offset pn.1 pn.2),
      g.normalsAttr, g.index⟩

/-- laplacianSmoothing of the basic fitting engine: a geometry without an
index is returned unchanged after an error log; otherwise the neighbor
map is built and the smoothing passes run with the given blend factor
(default 0.5). -/
def laplacianSmoothingGF (g : BufferGeometry) (iterations : Nat) (lambda : ℚ) :
    BufferGeometry :=
  match g.index with
  | none => g
  | some idx =>
    ⟨iterateSmooth (buildAdjacency g.positions.length idx) lambda iterations g.positions,
      g.normalsAttr, g.index⟩

/-- fitGarmentToBody: resolve collisions against the body, smooth the
garment, and recompute its vertex normals, in that order. -/
def fitGarmentToBody (ops : MathOps) (ray : RayQuery) (garment : BufferGeometry)
    (opts : FittingOptions) : BufferGeometry :=
  let g1 := resolveCollisions ops ray garment opts.fabricOffset
  let g2 := laplacianSmoothingGF g1 opts.smoothingIterations 0.5
  ⟨g2.positions, some (computeVertexNormalsList ops g2.positions g2.index), g2.index⟩

/-- A sample MathOps instantiation for concrete evaluations that consult
the transcendental functions only at arguments where their exact values
are rational: the square root of 0 and 1 (0 and 1), the sine and cosine
at 0 (0 and 1).  Other arguments are never consulted by the concrete
runs below. -/
def sampleOps : MathOps :=
  ⟨fun q => if q = 1 then 1 else 0, fun _ => 0, fun q => if q = 0 then 1 else 0,
    fun _ _ => 0, 0⟩

/-- A sample nearest-surface query: the ray from the origin straight down
the z axis hits at distance 0.001; every other ray misses. -/
def sampleRay : RayQuery := fun origin dir =>
  if origin = (⟨0, 0, 0⟩ : Vec3) ∧ dir = (⟨0, 0, -1⟩ : Vec3) then some 0.001 else none

/-- A sample unindexed two-vertex garment geometry with unit z normals. -/
def sampleUnindexedGarment : BufferGeometry :=
  ⟨[⟨0, 0, 0⟩, ⟨1, 0, 0⟩], some [⟨0, 0, 1⟩, ⟨0, 0, 1⟩], none⟩

/-- A sample indexed one-triangle body geometry without a normal
attribute. -/
def sampleNoNormalsBody : BufferGeometry :=
  ⟨[⟨0, 0, 0⟩, ⟨1, 0, 0⟩, ⟨0, 1, 0⟩], none, some [0, 1, 2]⟩

/-- The worst of two statuses is one of the two. -/
theorem worseOf_mem (a b : FitStatus) : worseOf a b = a ∨ worseOf a b = b := by
  unfold worseOf
  split_ifs <;> simp

/-- The worst of two statuses has priority at most that of the first. -/
theorem worseOf_le_left (a b : FitStatus) :
    statusPriority (worseOf a b) ≤ statusPriority a := by
  unfold worseOf
  split_ifs with h
  · exact le_of_lt h
  · exact le_refl _

/-- The worst of two statuses has priority at most that of the second. -/
theorem worseOf_le_right (a b : FitStatus) :
    statusPriority (worseOf a b) ≤ statusPriority b := by
  unfold worseOf
  split_ifs with h
  · exact le_refl _
  · exact le_of_not_lt h

/-- The worseOf reduce returns one of the statuses it was given. -/
theorem foldl_worseOf_mem (l : List FitStatus) :
    ∀ a : FitStatus, l.foldl worseOf a ∈ a :: l := by
  induction l with
  | nil => intro a; simp
  | cons b l ih =>
    intro a
    simp only [List.foldl_cons]
    rcases List.mem_cons.mp (ih (worseOf a b)) with h1 | h1
    · rcases worseOf_mem a b with h2 | h2
      · rw [h1, h2]; exact List.mem_cons_self _ _
      · rw [h1, h2]; exact List.mem_cons_of_mem _ (List.mem_cons_self _ _)
    · exact List.mem_cons_of_mem _ (List.mem_cons_of_mem _ h1)

/-- The worseOf reduce returns a status of minimal priority among the
statuses it was given. -/
theorem foldl_worseOf_le (l : List FitStatus) :
    ∀ a : FitStatus, ∀ s ∈ a :: l, statusPriority (l.foldl worseOf a) ≤ statusPriority s := by
  induction l with
  | nil =>
    intro a s hs
    rw [List.mem_singleton.mp hs]
    exact le_refl _
  | cons b l ih =>
    intro a s hs
    simp only [List.foldl_cons]
    rcases List.mem_cons.mp hs with h1 | h1
    · rw [h1]
      exact le_trans (ih (worseOf a b) _ (List.mem_cons_self _ _)) (worseOf_le_left a b)
    · rcases List.mem_cons.mp h1 with h2 | h2
      · rw [h2]
        exact le_trans (ih (worseOf a b) _ (List.mem_cons_self _ _)) (worseOf_le_right a b)
      · exact ih (worseOf a b) _ (List.mem_cons_of_mem _ h2)

/-- Unfolding of the overall status of analyzeFit: the worseOf reduce over
the chest status followed by the waist and shoulder statuses when they are
present. -/
theorem analyzeFit_overall_eq (g : GarmentMeasurements) (b : BodyMeasurements) :
    (analyzeFit g b).overall =
      (((analyzeFit g b).waistFit.map FitMetric.status).toList
        ++ ((analyzeFit g b).shoulderFit.map FitMetric.status).toList).foldl worseOf
        (analyzeFit g b).chestFit.status := rfl

/-- Claim C6 (amended): the overall status of analyzeFit is the worst,
under the statusPriority order, among the chest status together with the
waist and shoulder statuses when those metrics are computed; the length
metric never contributes to the overall status. -/
theorem analyzeFit_overall_worst_of_considered (g : GarmentMeasurements)
    (b : BodyMeasurements) :
    (analyzeFit g b).overall ∈ consideredStatuses (analyzeFit g b)
    ∧ ∀ s ∈ consideredStatuses (analyzeFit g b),
        statusPriority (analyzeFit g b).overall ≤ statusPriority s := by
  rw [consideredStatuses, analyzeFit_overall_eq]
  exact ⟨foldl_worseOf_mem _ _, foldl_worseOf_le _ _⟩

/-- Claim C6 witness: the amended theorem applied to a concrete garment
and body, with the membership hypothesis discharged on the chest status. -/
theorem analyzeFit_overall_worst_of_considered_witness :
    statusPriority (analyzeFit ⟨102, some 94, 70, some 46, none, none, none, none⟩
        ⟨95, 80, none, 45, some 68⟩).overall
      ≤ statusPriority (analyzeFit ⟨102, some 94, 70, some 46, none, none, none, none⟩
        ⟨95, 80, none, 45, some 68⟩).chestFit.status :=
  (analyzeFit_overall_worst_of_considered ⟨102, some 94, 70, some 46, none, none, none, none⟩
    ⟨95, 80, none, 45, some 68⟩).2 _ (List.mem_cons_self _ _)

/-- Claim C6 counterexample: a garment whose length metric is computed and
classified too_loose while the overall status is perfect, so the overall
status is not the worst among all computed per-region statuses (the length
status has strictly lower priority). -/
theorem analyzeFit_overall_ignores_length :
    (analyzeFit ⟨105, none, 100, none, none, none, none, none⟩
        ⟨100, 80, none, 40, some 50⟩).overall = FitStatus.perfect
    ∧ (analyzeFit ⟨105, none, 100, none, none, none, none, none⟩
        ⟨100, 80, none, 40, some 50⟩).lengthFit.map FitMetric.status
      = some FitStatus.too_loose
    ∧ statusPriority FitStatus.too_loose < statusPriority FitStatus.perfect := by
  norm_num [analyzeFit, mkFitMetric, classifyFit, jsTruthy, worseOf, statusPriority]

/-- Claim C7: classifyFit maps a percentage to exactly one status by the
thresholds at -5, 2, 10 and 20, and its category index in the order
too_tight, tight, perfect, loose, too_loose is non-decreasing. -/
theorem classifyFit_thresholds_monotone :
    (∀ p : ℚ,
      (p < -5 → classifyFit p = FitStatus.too_tight)
      ∧ (-5 ≤ p → p < 2 → classifyFit p = FitStatus.tight)
      ∧ (2 ≤ p → p < 10 → classifyFit p = FitStatus.perfect)
      ∧ (10 ≤ p → p < 20 → classifyFit p = FitStatus.loose)
      ∧ (20 ≤ p → classifyFit p = FitStatus.too_loose))
    ∧ ∀ p1 p2 : ℚ, p1 < p2 → statusIdx (classifyFit p1) ≤ statusIdx (classifyFit p2) := by
  constructor
  · intro p
    refine ⟨fun h => ?_, fun h1 h2 => ?_, fun h1 h2 => ?_, fun h1 h2 => ?_, fun h => ?_⟩ <;>
      (unfold classifyFit; split_ifs <;> first | rfl | linarith)
  · intro p1 p2 hlt
    unfold classifyFit
    split_ifs <;> first | (simp only [statusIdx]; omega) | linarith

/-- Claim C7 witness: threshold and monotonicity instances at concrete
percentages. -/
theorem classifyFit_thresholds_monotone_witness :
    classifyFit (-6) = FitStatus.too_tight
    ∧ statusIdx (classifyFit 0) ≤ statusIdx (classifyFit 15) :=
  ⟨(classifyFit_thresholds_monotone.1 (-6)).1 (by norm_num),
    classifyFit_thresholds_monotone.2 0 15 (by norm_num)⟩

/-- The clamped fabric offset always lies in the clearance band
[0.003, 0.05]. -/
theorem clampedFabricOffset_bounds (f : ℚ) :
    0.003 ≤ clampedFabricOffset f ∧ clampedFabricOffset f ≤ 0.05 := by
  constructor <;>
    · simp only [clampedFabricOffset]
      split_ifs <;> linarith

/-- Claim C4: the final displacement magnitude of the fabric offset
calculator lies in [0.003, 0.05] for every blended offset and every radial
position in [0, 1]; a negative blended offset yields exactly minClearance
0.003 (never a negative displacement); a non-negative blended offset is
clamped into [0.003, 0.05]; the boxiness multiplier 0.6 + 0.4 x
radialPosition applies exactly when the clamped offset exceeds 0.01; and
after boxiness the result is re-clamped to at least 0.003. -/
theorem hybridVertexOffset_clearance (cE wE sE nY r : ℚ) (hr0 : 0 ≤ r) (hr1 : r ≤ 1) :
    (0.003 ≤ hybridVertexOffset cE wE sE nY r ∧ hybridVertexOffset cE wE sE nY r ≤ 0.05)
    ∧ (blendedFabricOffset cE wE sE nY < 0 → hybridVertexOffset cE wE sE nY r = 0.003)
    ∧ (0 ≤ blendedFabricOffset cE wE sE nY →
        clampedFabricOffset (blendedFabricOffset cE wE sE nY)
          = min (max (blendedFabricOffset cE wE sE nY) 0.003) 0.05)
    ∧ (clampedFabricOffset (blendedFabricOffset cE wE sE nY) ≤ 0.01 →
        hybridVertexOffset cE wE sE nY r
          = clampedFabricOffset (blendedFabricOffset cE wE sE nY))
    ∧ (0.01 < clampedFabricOffset (blendedFabricOffset cE wE sE nY) →
        hybridVertexOffset cE wE sE nY r
          = max (clampedFabricOffset (blendedFabricOffset cE wE sE nY) * (0.6 + r * 0.4))
              0.003) := by
  have hb := clampedFabricOffset_bounds (blendedFabricOffset cE wE sE nY)
  have hdef : hybridVertexOffset cE wE sE nY r
      = (if 0.01 < clampedFabricOffset (blendedFabricOffset cE wE sE nY) then
          max (clampedFabricOffset (blendedFabricOffset cE wE sE nY) * (0.6 + r * 0.4)) 0.003
        else clampedFabricOffset (blendedFabricOffset cE wE sE nY)) := rfl
  refine ⟨?_, ?_, ?_, fun hle => ?_, fun hgt => ?_⟩
  · rw [hdef]
    split_ifs with hbox
    · constructor
      · exact le_max_right _ _
      · refine max_le ?_ (by norm_num)
        have hm : clampedFabricOffset (blendedFabricOffset cE wE sE nY) * (0.6 + r * 0.4)
            ≤ 0.05 * 1 := by
          apply mul_le_mul hb.2 (by linarith) (by linarith) (by norm_num)
        linarith
    · exact hb
  · intro hneg
    have hcv : clampedFabricOffset (blendedFabricOffset cE wE sE nY) = 0.003 := by
      simp only [clampedFabricOffset]
      rw [if_pos hneg]
    rw [hdef, hcv]
    norm_num
  · intro hpos
    simp only [clampedFabricOffset, min_def, max_def]
    split_ifs <;> first | rfl | linarith
  · rw [hdef, if_neg (not_lt.mpr hle)]
  · rw [hdef, if_pos hgt]

/-- Claim C4 witness: scenario B, every ease -3cm, torso height 0.6 and
radial position one half: the blended offset is negative and the final
displacement is exactly 0.003. -/
theorem hybridVertexOffset_clearance_witness :
    hybridVertexOffset (-3) (-3) (-3) 0.6 (1/2) = 0.003 :=
  (hybridVertexOffset_clearance (-3) (-3) (-3) 0.6 (1/2) (by norm_num) (by norm_num)).2.1
    (by norm_num [blendedFabricOffset])

/-- Claim C5: in the collision resolver with minClearance 0.015, a hit at
distance d below 0.015 moves the vertex outward along its normal by
exactly (0.015 - d) x 1.2 — 0.0168 for d = 0.001 — and a hit at distance
at least 0.015, or a miss, leaves the vertex unchanged with no error. -/
theorem collisionResponse_push_rule (d : ℚ) (p n : Vec3) :
    (d < 0.015 → collisionResponseVertex 0.015 p n (some d)
        = Vec3.add p (Vec3.smul ((0.015 - d) * 1.2) n))
    ∧ ((0.015 : ℚ) ≤ d → collisionResponseVertex 0.015 p n (some d) = p)
    ∧ collisionResponseVertex 0.015 p n none = p
    ∧ collisionResponseVertex 0.015 p n (some 0.001) = Vec3.add p (Vec3.smul 0.0168 n) := by
  refine ⟨fun h => ?_, fun h => ?_, rfl, ?_⟩
  · simp only [collisionResponseVertex]
    rw [if_pos h]
  · simp only [collisionResponseVertex]
    rw [if_neg (not_lt.mpr h)]
  · simp only [collisionResponseVertex]
    rw [if_pos (by norm_num : (0.001 : ℚ) < 0.015)]
    norm_num

/-- Claim C5 witness: a hit at distance 0.02, at least the clearance,
leaves a concrete vertex unchanged. -/
theorem collisionResponse_push_rule_witness :
    collisionResponseVertex 0.015 ⟨0, 0, 0⟩ ⟨0, 0, 1⟩ (some 0.02) = ⟨0, 0, 0⟩ :=
  (collisionResponse_push_rule 0.02 ⟨0, 0, 0⟩ ⟨0, 0, 1⟩).2.1 (by norm_num)

/-- Claim C2 counterexample: with the default options the pipeline's stage
sequence differs from the order the specification asserts; its last stage
is not the mesh smoother (the smoother runs third, right after region
selection and inflation), and the collision resolver runs strictly before
the dynamic wrinkle pass. -/
theorem hybridStageOrder_counterexample :
    createHybridTShirtStageTrace defaultHybridOptions ≠ specClaimedStageOrder
    ∧ (createHybridTShirtStageTrace defaultHybridOptions).getLast?
      ≠ some PipelineStage.laplacianSmooth
    ∧ (createHybridTShirtStageTrace defaultHybridOptions).indexOf
        PipelineStage.collisionResponse
      < (createHybridTShirtStageTrace defaultHybridOptions).indexOf
        PipelineStage.dynamicWrinkles := by
  decide

/-- Claim C2 (amended): with the default options the pipeline applies, in
order, region selection, fabric-offset inflation, Laplacian smoothing,
gravity drape, subtle wrinkles, then the physics stages stretch zones,
fabric weight, seam tension, collision response and dynamic wrinkles, and
finally the vertex-normal recomputation: the smoother runs before the
physics stages and the collision resolver precedes dynamic wrinkles. -/
theorem hybridStageOrder_actual :
    createHybridTShirtStageTrace defaultHybridOptions
      = [PipelineStage.regionSelect, PipelineStage.fabricOffsetInflate,
          PipelineStage.laplacianSmooth, PipelineStage.gravityDrape,
          PipelineStage.subtleWrinkles, PipelineStage.stretchZones,
          PipelineStage.fabricWeight, PipelineStage.seamTension,
          PipelineStage.collisionResponse, PipelineStage.dynamicWrinkles,
          PipelineStage.recomputeNormals] := by
  decide

/-- Claim C3 (amended): a mesh without a triangle index is not rejected
with an error: the mesh smoother returns it unchanged after a log, and
createHybridTShirt returns an empty group; no exception is raised. -/
theorem unindexed_no_error_no_op (ops : MathOps) (ray : RayQuery) (g : BufferGeometry)
    (o : HybridGarmentOptions) (iterations : Nat) (lambda : ℚ)
    (h : g.index = none) :
    laplacianSmoothingGF g iterations lambda = g
    ∧ (createHybridTShirt ops ray g o).2 = [] := by
  obtain ⟨ps, na, idx⟩ := g
  simp only at h
  subst h
  refine ⟨rfl, ?_⟩
  cases na <;> rfl

/-- Claim C3 witness: the amended theorem at the concrete unindexed
garment. -/
theorem unindexed_no_error_no_op_witness :
    laplacianSmoothingGF sampleUnindexedGarment 3 0.5 = sampleUnindexedGarment
    ∧ (createHybridTShirt sampleOps sampleRay sampleUnindexedGarment
        defaultHybridOptions).2 = [] :=
  unindexed_no_error_no_op sampleOps sampleRay sampleUnindexedGarment defaultHybridOptions
    3 0.5 rfl

/-- Claim C3 counterexample: fitGarmentToBody on an unindexed garment does
not fail fast: the collision stage displaces the first vertex (by 0.004
along its normal, to z = 1/250) before the smoother's index check silently
no-ops, so a partially processed mesh is returned and no error is
raised. -/
theorem unindexed_partial_displacement :
    (fitGarmentToBody sampleOps sampleRay sampleUnindexedGarment
        defaultFittingOptions).positions = [⟨0, 0, 1/250⟩, ⟨1, 0, 0⟩]
    ∧ (fitGarmentToBody sampleOps sampleRay sampleUnindexedGarment
        defaultFittingOptions).positions ≠ sampleUnindexedGarment.positions := by
  have heval : (fitGarmentToBody sampleOps sampleRay sampleUnindexedGarment
      defaultFittingOptions).positions = [⟨0, 0, 1/250⟩, ⟨1, 0, 0⟩] := by
    norm_num [fitGarmentToBody, resolveCollisions, resolveCollisionsVertex,
      laplacianSmoothingGF, sampleOps, sampleRay, sampleUnindexedGarment,
      defaultFittingOptions, Vec3.normalizeV, Vec3.vlen, Vec3.dot, Vec3.neg, Vec3.add,
      Vec3.smul, Vec3.zero, List.zip]
  refine ⟨heval, ?_⟩
  rw [heval]
  simp only [sampleUnindexedGarment]
  intro hcontra
  have := List.head_eq_of_cons_eq hcontra
  simp only [Vec3.mk.injEq] at this
  norm_num at this

/-- Claim C8 (amended): the fitting call never mutates the body mesh's
positions or triangle index, and a body mesh that already has a normal
attribute is left entirely unchanged; only a body without normals has its
vertex normals computed and stored in place. -/
theorem createHybridTShirt_preserves_body (ops : MathOps) (ray : RayQuery)
    (avatar : BufferGeometry) (o : HybridGarmentOptions) :
    (createHybridTShirt ops ray avatar o).1.positions = avatar.positions
    ∧ (createHybridTShirt ops ray avatar o).1.index = avatar.index
    ∧ (avatar.normalsAttr.isSome → (createHybridTShirt ops ray avatar o).1 = avatar) := by
  obtain ⟨ps, na, idx⟩ := avatar
  cases na with
  | none =>
    cases idx with
    | none => exact ⟨rfl, rfl, fun h => by simp at h⟩
    | some idx => exact ⟨rfl, rfl, fun h => by simp at h⟩
  | some ns =>
    cases idx with
    | none => exact ⟨rfl, rfl, fun _ => rfl⟩
    | some idx => exact ⟨rfl, rfl, fun _ => rfl⟩

/-- Claim C8 witness: a concrete body with a normal attribute comes back
from the fitting call fully unchanged. -/
theorem createHybridTShirt_preserves_body_witness :
    (createHybridTShirt sampleOps sampleRay
        ⟨[⟨0, 0, 0⟩, ⟨1, 0, 0⟩, ⟨0, 1, 0⟩], some [⟨0, 0, 1⟩, ⟨0, 0, 1⟩, ⟨0, 0, 1⟩],
          some [0, 1, 2]⟩ defaultHybridOptions).1
      = ⟨[⟨0, 0, 0⟩, ⟨1, 0, 0⟩, ⟨0, 1, 0⟩], some [⟨0, 0, 1⟩, ⟨0, 0, 1⟩, ⟨0, 0, 1⟩],
          some [0, 1, 2]⟩ :=
  (createHybridTShirt_preserves_body sampleOps sampleRay _ defaultHybridOptions).2.2 rfl

/-- Claim C8 counterexample: a body mesh without a normal attribute is
mutated by the fitting call, which computes its vertex normals and stores
them into the input geometry. -/
theorem createHybridTShirt_mutates_missing_normals :
    (createHybridTShirt sampleOps sampleRay sampleNoNormalsBody defaultHybridOptions).1
      ≠ sampleNoNormalsBody
    ∧ (createHybridTShirt sampleOps sampleRay sampleNoNormalsBody
        defaultHybridOptions).1.normalsAttr
      = some [⟨0, 0, 1⟩, ⟨0, 0, 1⟩, ⟨0, 0, 1⟩] := by
  have hnorm : (createHybridTShirt sampleOps sampleRay sampleNoNormalsBody
      defaultHybridOptions).1.normalsAttr = some [⟨0, 0, 1⟩, ⟨0, 0, 1⟩, ⟨0, 0, 1⟩] := by
    norm_num [createHybridTShirt, sampleNoNormalsBody, computeVertexNormalsList,
      accumulateNormals, triangleTriples, getV, Vec3.cross, Vec3.sub, Vec3.add, Vec3.zero,
      Vec3.normalizeV, Vec3.vlen, Vec3.dot, Vec3.smul, sampleOps, Function.comp,
      (show List.range 3 = [0, 1, 2] from rfl)]
  refine ⟨?_, hnorm⟩
  intro hcontra
  rw [hcontra] at hnorm
  simp [sampleNoNormalsBody] at hnorm

/-- A scan step whose candidate does not beat the current best score keeps
the best size, analysis and score, and only appends to the
alternatives. -/
theorem recommendStep_stable (b : BodyMeasurements) (st : RecommendState) (s : SizeOption)
    (h : calculateFitScore (analyzeFit s.measurements b) ≤ st.bestScore) :
    (recommendStep b st s).bestSize = st.bestSize
    ∧ (recommendStep b st s).bestAnalysis = st.bestAnalysis
    ∧ (recommendStep b st s).bestScore = st.bestScore
    ∧ ∃ suffix, (recommendStep b st s).alternatives = st.alternatives ++ suffix := by
  simp only [recommendStep]
  rw [if_neg (not_lt.mpr h)]
  split_ifs with h2
  · exact ⟨rfl, rfl, rfl,
      ⟨[⟨s.size, .positiveAlternative (analyzeFit s.measurements b).recommendation⟩], rfl⟩⟩
  · exact ⟨rfl, rfl, rfl, ⟨[], (List.append_nil _).symm⟩⟩

/-- A scan over candidates none of which beats the current best score
keeps the best fields and only appends to the alternatives. -/
theorem foldl_recommendStep_stable (b : BodyMeasurements) (l : List SizeOption) :
    ∀ st : RecommendState,
      (∀ s ∈ l, calculateFitScore (analyzeFit s.measurements b) ≤ st.bestScore) →
      (l.foldl (recommendStep b) st).bestSize = st.bestSize
      ∧ (l.foldl (recommendStep b) st).bestAnalysis = st.bestAnalysis
      ∧ (l.foldl (recommendStep b) st).bestScore = st.bestScore
      ∧ ∃ suffix, (l.foldl (recommendStep b) st).alternatives = st.alternatives ++ suffix := by
  induction l with
  | nil => exact fun st _ => ⟨rfl, rfl, rfl, ⟨[], (List.append_nil _).symm⟩⟩
  | cons a l ih =>
    intro st h
    simp only [List.foldl_cons]
    have ha := recommendStep_stable b st a (h a (List.mem_cons_self _ _))
    have hrest : ∀ s ∈ l, calculateFitScore (analyzeFit s.measurements b)
        ≤ (recommendStep b st a).bestScore := by
      intro s hs
      rw [ha.2.2.1]
      exact h s (List.mem_cons_of_mem _ hs)
    obtain ⟨h1, h2, h3, suf, hsuf⟩ := ih (recommendStep b st a) hrest
    obtain ⟨suf0, hsuf0⟩ := ha.2.2.2
    refine ⟨h1.trans ha.1, h2.trans ha.2.1, h3.trans ha.2.2.1, ⟨suf0 ++ suf, ?_⟩⟩
    rw [hsuf, hsuf0, List.append_assoc]

/-- Claim C9: when the first candidate attains the maximum fit score with
a strictly positive score and a non-extreme overall status, recommendSize
returns that first size, and — because the scan loop re-examines the
initial candidate — the same size also appears in the returned
alternatives. -/
theorem recommendSize_first_best (b : BodyMeasurements) (s0 : SizeOption)
    (rest : List SizeOption)
    (hmax : ∀ s ∈ s0 :: rest, calculateFitScore (analyzeFit s.measurements b)
        ≤ calculateFitScore (analyzeFit s0.measurements b))
    (hpos : 0 < calculateFitScore (analyzeFit s0.measurements b))
    (hnt : (analyzeFit s0.measurements b).overall ≠ FitStatus.too_tight)
    (hnl : (analyzeFit s0.measurements b).overall ≠ FitStatus.too_loose) :
    ∃ r, recommendSize (s0 :: rest) b = some r
      ∧ r.recommendedSize = s0.size
      ∧ s0.size ∈ r.alternativeSizes.map SizeAlternative.size := by
  have hstep : recommendStep b
      ⟨s0, analyzeFit s0.measurements b, calculateFitScore (analyzeFit s0.measurements b), []⟩
      s0
      = ⟨s0, analyzeFit s0.measurements b, calculateFitScore (analyzeFit s0.measurements b),
          [⟨s0.size, .positiveAlternative (analyzeFit s0.measurements b).recommendation⟩]⟩ := by
    simp only [recommendStep]
    rw [if_neg (lt_irrefl _), if_pos ⟨hpos, hnt, hnl⟩]
    simp only [List.nil_append]
  simp only [recommendSize, List.foldl_cons, hstep]
  obtain ⟨h1, h2, h3, suf, hsuf⟩ := foldl_recommendStep_stable b rest
    ⟨s0, analyzeFit s0.measurements b, calculateFitScore (analyzeFit s0.measurements b),
      [⟨s0.size, .positiveAlternative (analyzeFit s0.measurements b).recommendation⟩]⟩
    (fun s hs => hmax s (List.mem_cons_of_mem _ hs))
  refine ⟨_, rfl, ?_, ?_⟩
  · rw [h1]
  · rw [hsuf]
    simp

/-- Claim C9 witness: a two-size chart where the first size M scores 30
(maximal, positive, overall perfect) and L scores -15: M is recommended
and M also appears among the alternatives. -/
theorem recommendSize_first_best_witness :
    ∃ r, recommendSize [⟨"M", ⟨105, none, 70, none, none, none, none, none⟩⟩,
        ⟨"L", ⟨130, none, 72, none, none, none, none, none⟩⟩] ⟨100, 80, none, 40, none⟩
      = some r
      ∧ r.recommendedSize = "M"
      ∧ "M" ∈ r.alternativeSizes.map SizeAlternative.size :=
  recommendSize_first_best ⟨100, 80, none, 40, none⟩
    ⟨"M", ⟨105, none, 70, none, none, none, none, none⟩⟩
    [⟨"L", ⟨130, none, 72, none, none, none, none, none⟩⟩]
    (by
      intro s hs
      rcases List.mem_cons.mp hs with h | h
      · rw [h]
      · rw [List.mem_singleton.mp h]
        norm_num [calculateFitScore, analyzeFit, mkFitMetric, classifyFit, jsTruthy,
          statusScore, worseOf, statusPriority])
    (by norm_num [calculateFitScore, analyzeFit, mkFitMetric, classifyFit, jsTruthy,
      statusScore, worseOf, statusPriority])
    (by
      norm_num [analyzeFit, mkFitMetric, classifyFit, jsTruthy, worseOf, statusPriority]
      decide)
    (by
      norm_num [analyzeFit, mkFitMetric, classifyFit, jsTruthy, worseOf, statusPriority]
      decide)

/-- A scan step moves the best size only to the candidate it examined. -/
theorem recommendStep_bestSize_cases (b : BodyMeasurements) (st : RecommendState)
    (s : SizeOption) :
    (recommendStep b st s).bestSize = st.bestSize ∨ (recommendStep b st s).bestSize = s := by
  simp only [recommendStep]
  split_ifs <;> simp

/-- The best size after a scan is drawn from the initial best together
with the scanned candidates. -/
theorem foldl_recommendStep_bestSize_mem (b : BodyMeasurements) (pool : List SizeOption)
    (l : List SizeOption) :
    ∀ st : RecommendState, st.bestSize ∈ pool → (∀ s ∈ l, s ∈ pool) →
      (l.foldl (recommendStep b) st).bestSize ∈ pool := by
  induction l with
  | nil => exact fun st h _ => h
  | cons a l ih =>
    intro st h hl
    simp only [List.foldl_cons]
    apply ih
    · rcases recommendStep_bestSize_cases b st a with h1 | h1
      · rw [h1]; exact h
      · rw [h1]; exact hl a (List.mem_cons_self _ _)
    · exact fun s hs => hl s (List.mem_cons_of_mem _ hs)

/-- Claim C10: recommendSize faults on the empty candidate list (the
source reads availableSizes[0].measurements before the scan loop, a
runtime type error modelled by none), and on every non-empty list it
returns a size drawn from the list. -/
theorem recommendSize_empty_faults_nonempty_returns (b : BodyMeasurements)
    (sizes : List SizeOption) :
    recommendSize [] b = none
    ∧ (sizes ≠ [] → ∃ r, recommendSize sizes b = some r
        ∧ r.recommendedSize ∈ sizes.map SizeOption.size) := by
  refine ⟨rfl, fun hne => ?_⟩
  match sizes with
  | [] => exact absurd rfl hne
  | s0 :: rest =>
    simp only [recommendSize]
    refine ⟨_, rfl, ?_⟩
    have hmem := foldl_recommendStep_bestSize_mem b (s0 :: rest) (s0 :: rest)
      ⟨s0, analyzeFit s0.measurements b, calculateFitScore (analyzeFit s0.measurements b), []⟩
      (List.mem_cons_self _ _) (fun _ hs => hs)
    exact List.mem_map.mpr ⟨_, hmem, rfl⟩

/-- Claim C10 witness: the empty list yields none for a concrete body,
and a concrete one-size list yields its only size. -/
theorem recommendSize_empty_faults_nonempty_returns_witness :
    recommendSize [] ⟨100, 80, none, 40, none⟩ = none
    ∧ ∃ r, recommendSize [⟨"M", ⟨105, none, 70, none, none, none, none, none⟩⟩]
        ⟨100, 80, none, 40, none⟩ = some r
      ∧ r.recommendedSize
        ∈ [(⟨"M", ⟨105, none, 70, none, none, none, none, none⟩⟩ : SizeOption)].map
          SizeOption.size :=
  ⟨(recommendSize_empty_faults_nonempty_returns ⟨100, 80, none, 40, none⟩ []).1,
    (recommendSize_empty_faults_nonempty_returns ⟨100, 80, none, 40, none⟩
      [⟨"M", ⟨105, none, 70, none, none, none, none, none⟩⟩]).2 (List.cons_ne_nil _ _)⟩

end FitPassport
